import Mathlib

/-!
Verification of the PostgreSQL trampoline in
`src/ports/postgres/dbconnector/PGMain.cpp` (function `call`): a shallow
embedding of the exception-to-error-channel translation, the message
buffer handling, and the argument-wrapping discipline, together with
theorems settling the specified properties.
-/

/-- Bytes of an ASCII string (each character's code point; for the ASCII
constants appearing in the source this coincides with the UTF-8 bytes). -/
def strBytes (s : String) : List Nat := s.data.map Char.toNat

/-- Size of the local report buffer: `char msg[2048];` in `call`. -/
def msgBufSize : Nat := 2048

/-- Effect of `strncpy(msg, src, n)` on an `n`-byte buffer, where `src` is
the byte list of the source C string (terminator not included): at most `n`
bytes are copied from `src`; if `src` is shorter than `n` the remainder of
the buffer is filled with NUL bytes; if `src` has `n` or more bytes, exactly
`n` bytes are copied and no terminator is written. -/
def strncpyBuf (src : List Nat) (n : Nat) : List Nat :=
  src.take n ++ List.replicate (n - src.length) 0

/-- Effect of `msg[sizeof(msg) - 1] = '\0';` on the 2048-byte buffer. -/
def setLastZero (buf : List Nat) : List Nat :=
  buf.take (msgBufSize - 1) ++ [0]

/-- The C string read back out of a buffer (all bytes up to the first NUL),
as consumed by the `%s` conversion in `errmsg`. -/
def cstr (buf : List Nat) : List Nat := buf.takeWhile (fun b => b != 0)

/-- Full buffer pipeline of `call` for one source message:
`strncpy(msg, src, sizeof(msg))` followed by `msg[sizeof(msg) - 1] = '\0'`. -/
def storeMsg (src : List Nat) : List Nat := setLastZero (strncpyBuf src msgBufSize)

/-- The message text that actually reaches `errmsg` when the failure text was
`src`: the truncated, NUL-terminated buffer content. -/
def reportedText (src : List Nat) : List Nat := cstr (storeMsg src)

/-- Modelled from the spec: the host-branded package name substituted for the
`PACKAGE_NAME` build macro, which is defined outside this repository's
sources ("a fixed, English, host-branded explanation"). -/
def packageName : String := "MADlib"

/-- The fixed out-of-memory message from the `catch (std::bad_alloc &)`
handler in `call`. -/
def oomMsg : List Nat :=
  strBytes ("Memory allocation failed. Typically, this indicates that "
    ++ packageName
    ++ " limits the available memory to less than what is needed for this "
    ++ "input.")

/-- The generic fallback message from the `catch (...)` handler in `call`. -/
def unknownExcMsg : List Nat := strBytes "Unknown exception was raised."

/-- A C++ failure signal reaching one of `call`'s handlers: a
`std::bad_alloc` (which is-a `std::exception`), some other `std::exception`
with its `what()` text, or a throw of something not derived from
`std::exception` (matched only by `catch (...)`). -/
inductive CppException where
  | badAlloc (what : List Nat)
  | stdExc (what : List Nat)
  | nonStd
deriving DecidableEq

/-- Whether a `catch (std::exception &)` clause matches this exception:
`std::bad_alloc` derives from `std::exception`, so it does. -/
def CppException.isStdException : CppException → Bool
  | badAlloc _ => true
  | stdExc _ => true
  | nonStd => false

/-- The Invocation Context (`PGInterface db(fcinfo)`): its observable state
here is the diagnostic slot `lastError()`, a possibly-NULL C string pointer,
modelled as `none` for NULL. -/
structure PGInterface where
  lastError : Option (List Nat)
deriving DecidableEq

/-- Modelled from the spec: the deleter policy of a shared pointer to an
abstract value. `noDeleter` is the `NoDeleter<AbstractType>()` policy
(declared outside this repository's sources): releasing the last reference
must not free the pointee; `defaultDeleter` is the owning policy. -/
inductive DeleterPolicy where
  | noDeleter
  | defaultDeleter
deriving DecidableEq

/-- Modelled from the spec: whether dropping the last shared reference frees
the wrapped value ("the container must never free memory it does not own" —
the `noDeleter` policy's delete action is a no-op). -/
def DeleterPolicy.freesPointee : DeleterPolicy → Bool
  | noDeleter => false
  | defaultDeleter => true

/-- The `AbstractTypeSPtr` handle: a shared pointer carrying its deleter
policy. -/
structure AbstractTypeSPtr where
  deleter : DeleterPolicy
deriving DecidableEq

/-- The Polymorphic Value (`AnyType`): either the null value or a wrapped
abstract value reached through a shared pointer. -/
inductive AnyType where
  | null
  | wrapped (p : AbstractTypeSPtr)
deriving DecidableEq

/-- `AnyType::isNull()`. -/
def AnyType.isNull : AnyType → Bool
  | null => true
  | wrapped _ => false

/-- Whether destroying this container would free the value it wraps: only if
it wraps a pointer whose deleter policy is the owning one. -/
def AnyType.freesWrapped : AnyType → Bool
  | null => false
  | wrapped p => p.deleter.freesPointee

/-- A host datum (`Datum`), opaque here. -/
structure Datum where
  raw : Nat
deriving DecidableEq

/-- The two error classifications produced by `call`:
`ERRCODE_OUT_OF_MEMORY` and `ERRCODE_INVALID_PARAMETER_VALUE`. -/
inductive SqlErrCode where
  | outOfMemory
  | invalidParameterValue
deriving DecidableEq

/-- The Error Record handed to `ereport`: the SQL error code and the
formatted message bytes. -/
structure ErrorRecord where
  sqlerrcode : SqlErrCode
  message : List Nat
deriving DecidableEq

/-- The observable outcome of one invocation of `call`. `errorReport` is the
`ereport(ERROR, ...)` call, a non-local exit (longjmp) that never returns;
`trailingNull` is the `PG_RETURN_NULL()` on the last line of `call`, after
`ereport` — it is a possible outcome of the control-flow graph but is never
produced, precisely because `ereport` does not return. -/
inductive CallOutcome where
  | returnNull
  | returnDatum (d : Datum)
  | errorReport (e : ErrorRecord)
  | trailingNull
deriving DecidableEq

/-- `errmsg("Function \"%s\": %s", format_procedure(...), msg)`. -/
def formatMsg (fname msg : List Nat) : List Nat :=
  strBytes "Function \x22" ++ fname ++ strBytes "\x22: " ++ msg

/-- One invocation scenario for `call`: the symbol name reported by
`format_procedure`, the outcome of constructing the Invocation Context
(`PGInterface db(fcinfo)`, which may itself throw), the behaviour of the
guarded body given the argument Polymorphic Value and the context (the final
context state — nested code may have set the diagnostic slot — together with
a returned `AnyType` or an escaping exception), and the Result Adapter.
The bodies of these collaborators are outside this repository's sources;
only `call`'s use of them is verified. -/
structure Scenario where
  fname : List Nat
  ctor : Except CppException PGInterface
  exec : AnyType → PGInterface → PGInterface × Except CppException AnyType
  convert : AnyType → Datum

/-- A handler's `strncpy(msg, srcMsg, sizeof(msg))` composed with the tail of
`call` from line 103 on: `msg[sizeof(msg) - 1] = '\0';` then
`ereport(ERROR, (errcode(sqlerrcode), errmsg("Function \"%s\": %s", ...)))`.
The message handed to `errmsg` is thus `reportedText srcMsg`, the truncated
buffer content. `ereport(ERROR, ...)` performs a non-local transfer of
control and never returns, so the outcome is the error report itself and the
subsequent `PG_RETURN_NULL()` is not reached. -/
def reportAndExit (code : SqlErrCode) (srcMsg : List Nat) (fname : List Nat) :
    CallOutcome :=
  CallOutcome.errorReport ⟨code, formatMsg fname (reportedText srcMsg)⟩

/-- The body of `call` with the argument Polymorphic Value abstracted: the
outer try constructs the context; the inner try runs the guarded body and
dispatches its exception to `catch (std::bad_alloc &)` then
`catch (std::exception &)`; an exception matching neither inner handler, and
any exception escaping context construction, reaches the outer
`catch (std::exception &)` / `catch (...)` handlers. Each handler fills the
2048-byte buffer with `strncpy` and falls through to `reportAndExit`. -/
def callWithArg (s : Scenario) (a : AnyType) : CallOutcome :=
  match s.ctor with
  | Except.error (CppException.badAlloc w) =>
      -- escapes to the outer catch (std::exception &exc): bad_alloc is-a
      -- std::exception, and the outer try has no bad_alloc handler
      reportAndExit SqlErrCode.invalidParameterValue w s.fname
  | Except.error (CppException.stdExc w) =>
      reportAndExit SqlErrCode.invalidParameterValue w s.fname
  | Except.error CppException.nonStd =>
      reportAndExit SqlErrCode.invalidParameterValue unknownExcMsg s.fname
  | Except.ok db =>
      match s.exec a db with
      | (_, Except.ok result) =>
          if result.isNull then CallOutcome.returnNull
          else CallOutcome.returnDatum (s.convert result)
      | (_, Except.error (CppException.badAlloc _)) =>
          reportAndExit SqlErrCode.outOfMemory oomMsg s.fname
      | (db2, Except.error (CppException.stdExc w)) =>
          -- const char *error = exc.what();
          -- if (db.lastError()) error = db.lastError();
          reportAndExit SqlErrCode.invalidParameterValue
            (match db2.lastError with
              | some d => d
              | none => w) s.fname
      | (_, Except.error CppException.nonStd) =>
          -- no matching inner handler: propagates to the outer catch (...)
          reportAndExit SqlErrCode.invalidParameterValue unknownExcMsg s.fname

/-- The argument Polymorphic Value constructed by `call`:
`AnyType(AbstractTypeSPtr(&arg, NoDeleter<AbstractType>()))`. -/
def callArg : AnyType := AnyType.wrapped ⟨DeleterPolicy.noDeleter⟩

/-- The trampoline `call`: runs the guarded body on the argument value it
constructed. -/
def call (s : Scenario) : CallOutcome := callWithArg s callArg

/-- Whether the scenario is a failing invocation: context construction threw,
or the guarded body threw. -/
def callFails (s : Scenario) : Bool :=
  match s.ctor with
  | Except.error _ => true
  | Except.ok db =>
      match s.exec callArg db with
      | (_, Except.error _) => true
      | (_, Except.ok _) => false

/-- `takeWhile` is unchanged by appending a single byte that fails the
predicate (the buffer's forced final NUL). -/
theorem takeWhile_append_zero (p : Nat → Bool) (hp : p 0 = false) :
    ∀ l : List Nat, ((l ++ [0]).takeWhile p) = l.takeWhile p
  | [] => by simp [List.takeWhile_cons, hp]
  | a :: l => by
      by_cases h : p a = true
      · simp only [List.cons_append, List.takeWhile_cons, h, if_true,
          takeWhile_append_zero p hp l]
      · simp only [List.cons_append, List.takeWhile_cons,
          Bool.not_eq_true] at h ⊢
        simp [h]

/-- `takeWhile` distributes over an append whose first part satisfies the
predicate everywhere. -/
theorem takeWhile_append_all (p : Nat → Bool) :
    ∀ l1 l2 : List Nat, (∀ b ∈ l1, p b = true) →
      (l1 ++ l2).takeWhile p = l1 ++ l2.takeWhile p
  | [], l2, _ => by simp
  | a :: l1, l2, h => by
      have ha : p a = true := h a (by simp)
      simp only [List.cons_append, List.takeWhile_cons, ha, if_true]
      rw [takeWhile_append_all p l1 l2 (fun b hb => h b (by simp [hb]))]

/-- A replicated-NUL padding followed by the forced final NUL contributes
nothing to the C string read back out of the buffer. -/
theorem takeWhile_replicate_zero (p : Nat → Bool) (hp : p 0 = false) (k : Nat) :
    (List.replicate k 0 ++ [0]).takeWhile p = [] := by
  cases k with
  | zero => simp [List.takeWhile_cons, hp]
  | succ n => simp [List.replicate_succ, List.takeWhile_cons, hp]

/-- `takeWhile` never lengthens a list. -/
theorem length_takeWhile_le (p : Nat → Bool) :
    ∀ l : List Nat, (l.takeWhile p).length ≤ l.length
  | [] => by simp
  | a :: l => by
      by_cases h : p a = true
      · simpa [List.takeWhile_cons, h] using length_takeWhile_le p l
      · simp only [Bool.not_eq_true] at h
        simp [List.takeWhile_cons, h]

/-- `strncpy` always produces a buffer of exactly `n` bytes. -/
theorem length_strncpyBuf (src : List Nat) (n : Nat) :
    (strncpyBuf src n).length = n := by
  simp only [strncpyBuf, List.length_append, List.length_take,
    List.length_replicate]
  omega

/-- The stored buffer is exactly `msgBufSize` bytes: no overflow. -/
theorem length_storeMsg (src : List Nat) :
    (storeMsg src).length = msgBufSize := by
  simp only [storeMsg, setLastZero, List.length_append, List.length_take,
    length_strncpyBuf, List.length_cons, List.length_nil, msgBufSize]
  omega

/-- The stored buffer's final byte is the forced NUL terminator. -/
theorem getLast?_storeMsg (src : List Nat) :
    (storeMsg src).getLast? = some 0 := by
  simp only [storeMsg, setLastZero]
  exact List.getLast?_concat _

/-- The C string read back out of the stored buffer is at most
`msgBufSize - 1` bytes: truncation with room for the terminator. -/
theorem length_cstr_storeMsg (src : List Nat) :
    (cstr (storeMsg src)).length ≤ msgBufSize - 1 := by
  have h0 : (fun b => b != 0) 0 = false := by decide
  have := takeWhile_append_zero (fun b => b != 0) h0
      ((strncpyBuf src msgBufSize).take (msgBufSize - 1))
  simp only [storeMsg, setLastZero, cstr, this]
  calc (((strncpyBuf src msgBufSize).take (msgBufSize - 1)).takeWhile
          (fun b => b != 0)).length
      ≤ ((strncpyBuf src msgBufSize).take (msgBufSize - 1)).length :=
        length_takeWhile_le _ _
    _ ≤ msgBufSize - 1 := by
        simp [List.length_take]

/-- A NUL-free source that fits in the buffer (with room for the terminator)
is reported verbatim: no truncation, terminator found at the right place. -/
theorem reportedText_short (src : List Nat) (h0 : ∀ b ∈ src, b ≠ 0)
    (hlen : src.length ≤ msgBufSize - 1) :
    reportedText src = src := by
  have hp0 : (fun b => (b != 0)) 0 = false := by decide
  have hlen2 : src.length ≤ msgBufSize := le_trans hlen (by omega)
  have htake : src.take msgBufSize = src := List.take_of_length_le hlen2
  have hbuf : strncpyBuf src msgBufSize =
      src ++ List.replicate (msgBufSize - src.length) 0 := by
    rw [strncpyBuf, htake]
  have htake2 : (src ++ List.replicate (msgBufSize - src.length) 0).take
      (msgBufSize - 1) =
      src ++ List.replicate (msgBufSize - 1 - src.length) 0 := by
    rw [List.take_append_eq_append_take, List.take_of_length_le hlen,
      List.take_replicate]
    congr 1
    congr 1
    omega
  have hall : ∀ b ∈ src, (fun b => (b != 0)) b = true := by
    intro b hb
    simpa using h0 b hb
  rw [reportedText, storeMsg, setLastZero, hbuf, htake2, cstr,
    List.append_assoc, takeWhile_append_all _ src _ hall,
    takeWhile_replicate_zero (fun b => b != 0) (by decide), List.append_nil]

set_option maxRecDepth 4000 in
/-- The fixed out-of-memory text fits the buffer and is reported verbatim. -/
theorem reportedText_oomMsg : reportedText oomMsg = oomMsg :=
  reportedText_short oomMsg (by decide) (by decide)

/-- The generic fallback text fits the buffer and is reported verbatim. -/
theorem reportedText_unknownExcMsg : reportedText unknownExcMsg = unknownExcMsg :=
  reportedText_short unknownExcMsg (by decide) (by decide)

/-- Claim C1: for every invocation in which an allocation failure
(`std::bad_alloc`) occurs during execution (after the Invocation Context was
constructed), the classification is `ERRCODE_OUT_OF_MEMORY` and the reported
message is the fixed explanatory string `oomMsg`, independent of the text
`w` carried by the underlying exception. -/
theorem badAlloc_during_execution_reports_oom (s : Scenario)
    (db db2 : PGInterface) (w : List Nat)
    (hctor : s.ctor = Except.ok db)
    (hexec : s.exec callArg db = (db2, Except.error (CppException.badAlloc w))) :
    call s = CallOutcome.errorReport
      ⟨SqlErrCode.outOfMemory, formatMsg s.fname oomMsg⟩ := by
  simp [call, callWithArg, hctor, hexec, reportAndExit, reportedText_oomMsg]

def scnOomExec : Scenario where
  fname := strBytes "add"
  ctor := Except.ok ⟨none⟩
  exec := fun _ db => (db, Except.error (CppException.badAlloc (strBytes "std::bad_alloc")))
  convert := fun _ => ⟨0⟩

/-- Witness for C1: a concrete invocation whose guarded body throws
`bad_alloc` is reported as out-of-memory with the fixed message. -/
theorem badAlloc_during_execution_reports_oom_witness :
    call scnOomExec = CallOutcome.errorReport
      ⟨SqlErrCode.outOfMemory, formatMsg (strBytes "add") oomMsg⟩ :=
  badAlloc_during_execution_reports_oom scnOomExec ⟨none⟩ ⟨none⟩
    (strBytes "std::bad_alloc") rfl rfl

/-- Claim C2: a recognized (`std::exception`) failure after the Invocation
Context exists is classified `ERRCODE_INVALID_PARAMETER_VALUE`; the reported
text is the exception's own `what()` text when the context's diagnostic slot
(`db.lastError()`) is NULL, and the diagnostic slot's text when it is set —
the diagnostic overrides the exception's text. -/
theorem stdExc_reports_invalid_with_diag_precedence (s : Scenario)
    (db db2 : PGInterface) (w : List Nat)
    (hctor : s.ctor = Except.ok db)
    (hexec : s.exec callArg db = (db2, Except.error (CppException.stdExc w))) :
    (db2.lastError = none →
      call s = CallOutcome.errorReport
        ⟨SqlErrCode.invalidParameterValue, formatMsg s.fname (reportedText w)⟩) ∧
    (∀ d, db2.lastError = some d →
      call s = CallOutcome.errorReport
        ⟨SqlErrCode.invalidParameterValue, formatMsg s.fname (reportedText d)⟩) := by
  constructor
  · intro hnone
    simp [call, callWithArg, hctor, hexec, reportAndExit, hnone]
  · intro d hsome
    simp [call, callWithArg, hctor, hexec, reportAndExit, hsome]

def scnDiag : Scenario where
  fname := strBytes "add"
  ctor := Except.ok ⟨none⟩
  exec := fun _ _ =>
    (⟨some (strBytes "M1")⟩, Except.error (CppException.stdExc (strBytes "M2")))
  convert := fun _ => ⟨0⟩

/-- Witness for C2: the diagnostic slot holds `"M1"`, the exception carries
`"M2"`; the report carries `"M1"`. -/
theorem stdExc_reports_invalid_with_diag_precedence_witness :
    call scnDiag = CallOutcome.errorReport
      ⟨SqlErrCode.invalidParameterValue,
        formatMsg (strBytes "add") (strBytes "M1")⟩ := by
  have h := (stdExc_reports_invalid_with_diag_precedence scnDiag ⟨none⟩
    ⟨some (strBytes "M1")⟩ (strBytes "M2") rfl rfl).2 (strBytes "M1") rfl
  rwa [reportedText_short (strBytes "M1") (by decide) (by decide)] at h

/-- Claim C3: when the native function returns normally, a null result is
signalled through `PG_RETURN_NULL()` and a non-null result is converted by
`PGToDatumConverter` and returned normally; no error report (non-local exit)
occurs on this path. -/
theorem normal_return_path (s : Scenario) (db db2 : PGInterface) (r : AnyType)
    (hctor : s.ctor = Except.ok db)
    (hexec : s.exec callArg db = (db2, Except.ok r)) :
    (r.isNull = true → call s = CallOutcome.returnNull) ∧
    (r.isNull = false → call s = CallOutcome.returnDatum (s.convert r)) ∧
    (∀ e, call s ≠ CallOutcome.errorReport e) := by
  refine ⟨fun hn => ?_, fun hn => ?_, fun e => ?_⟩
  · simp [call, callWithArg, hctor, hexec, hn]
  · simp [call, callWithArg, hctor, hexec, hn]
  · cases hn : r.isNull <;> simp [call, callWithArg, hctor, hexec, hn]

def scnNullResult : Scenario where
  fname := strBytes "add"
  ctor := Except.ok ⟨none⟩
  exec := fun _ db => (db, Except.ok AnyType.null)
  convert := fun _ => ⟨0⟩

/-- Witness for C3: a concrete invocation whose native function returns the
null value signals null through the host's null-return protocol. -/
theorem normal_return_path_witness : call scnNullResult = CallOutcome.returnNull :=
  (normal_return_path scnNullResult ⟨none⟩ ⟨none⟩ AnyType.null rfl rfl).1 rfl

/-- Claim C9: a `bad_alloc` thrown while the Invocation Context itself is
being constructed escapes the inner try and is caught by the outer
`catch (std::exception &)` handler: it is classified
`ERRCODE_INVALID_PARAMETER_VALUE` with the exception's own text, not
`ERRCODE_OUT_OF_MEMORY` with the fixed message. -/
theorem badAlloc_in_ctor_reports_invalid (s : Scenario) (w : List Nat)
    (hctor : s.ctor = Except.error (CppException.badAlloc w)) :
    call s = CallOutcome.errorReport
      ⟨SqlErrCode.invalidParameterValue, formatMsg s.fname (reportedText w)⟩ ∧
    (∀ m, call s ≠ CallOutcome.errorReport ⟨SqlErrCode.outOfMemory, m⟩) := by
  have h1 : call s = CallOutcome.errorReport
      ⟨SqlErrCode.invalidParameterValue, formatMsg s.fname (reportedText w)⟩ := by
    simp [call, callWithArg, hctor, reportAndExit]
  refine ⟨h1, fun m hm => ?_⟩
  rw [h1] at hm
  simp at hm

def scnBadAllocCtor : Scenario where
  fname := strBytes "add"
  ctor := Except.error (CppException.badAlloc (strBytes "std::bad_alloc"))
  exec := fun _ db => (db, Except.ok AnyType.null)
  convert := fun _ => ⟨0⟩

/-- Witness for C9: a concrete invocation whose context construction throws
`bad_alloc` is reported as invalid-parameter-value with the exception's own
text. -/
theorem badAlloc_in_ctor_reports_invalid_witness :
    call scnBadAllocCtor = CallOutcome.errorReport
      ⟨SqlErrCode.invalidParameterValue,
        formatMsg (strBytes "add") (reportedText (strBytes "std::bad_alloc"))⟩ :=
  (badAlloc_in_ctor_reports_invalid scnBadAllocCtor
    (strBytes "std::bad_alloc") rfl).1

/-- Claim C10: on the out-of-memory path the diagnostic slot is never
consulted: even when nested code set a non-empty diagnostic before the
allocation failure, the reported message is the fixed explanatory string;
the diagnostic-overrides-exception precedence applies only on the
invalid-parameter path after context construction. -/
theorem oom_path_ignores_diagnostic (s : Scenario) (db db2 : PGInterface)
    (d w : List Nat)
    (hctor : s.ctor = Except.ok db)
    (hdiag : db2.lastError = some d)
    (hexec : s.exec callArg db = (db2, Except.error (CppException.badAlloc w))) :
    call s = CallOutcome.errorReport
      ⟨SqlErrCode.outOfMemory, formatMsg s.fname oomMsg⟩ := by
  simp [call, callWithArg, hctor, hexec, reportAndExit, reportedText_oomMsg]

def scnOomDiag : Scenario where
  fname := strBytes "add"
  ctor := Except.ok ⟨none⟩
  exec := fun _ _ =>
    (⟨some (strBytes "M1")⟩, Except.error (CppException.badAlloc (strBytes "M2")))
  convert := fun _ => ⟨0⟩

/-- Witness for C10: the diagnostic slot holds `"M1"` when `bad_alloc` is
thrown; the report still carries the fixed out-of-memory message. -/
theorem oom_path_ignores_diagnostic_witness :
    call scnOomDiag = CallOutcome.errorReport
      ⟨SqlErrCode.outOfMemory, formatMsg (strBytes "add") oomMsg⟩ :=
  oom_path_ignores_diagnostic scnOomDiag ⟨none⟩ ⟨some (strBytes "M1")⟩
    (strBytes "M1") (strBytes "M2") rfl rfl rfl

/-- Claim C4: for every failure message of any byte length, the stored
report buffer is exactly `msgBufSize` (2048) bytes — no overflow —, its
final byte is the forced NUL terminator, and the message read back out of it
is at most `msgBufSize - 1` bytes: truncation with a guaranteed
terminator. -/
theorem message_buffer_safe (src : List Nat) :
    (storeMsg src).length = msgBufSize ∧
    (storeMsg src).getLast? = some 0 ∧
    (cstr (storeMsg src)).length ≤ msgBufSize - 1 :=
  ⟨length_storeMsg src, getLast?_storeMsg src, length_cstr_storeMsg src⟩

/-- Claim C5: every failure that is not a recognized message-carrying
exception caught by the inner handlers is still reported exactly once, as
`ERRCODE_INVALID_PARAMETER_VALUE`: a `std::exception` (including
`bad_alloc`) escaping context construction carries its own text; a
non-`std::exception` failure — whether it escapes context construction or
the guarded body (where no inner handler matches it) — gets the generic
fallback text. -/
theorem unrecognized_failures_still_reported (s : Scenario) :
    (∀ w, s.ctor = Except.error (CppException.stdExc w) →
      call s = CallOutcome.errorReport
        ⟨SqlErrCode.invalidParameterValue, formatMsg s.fname (reportedText w)⟩) ∧
    (∀ w, s.ctor = Except.error (CppException.badAlloc w) →
      call s = CallOutcome.errorReport
        ⟨SqlErrCode.invalidParameterValue, formatMsg s.fname (reportedText w)⟩) ∧
    (s.ctor = Except.error CppException.nonStd →
      call s = CallOutcome.errorReport
        ⟨SqlErrCode.invalidParameterValue, formatMsg s.fname unknownExcMsg⟩) ∧
    (∀ db db2, s.ctor = Except.ok db →
      s.exec callArg db = (db2, Except.error CppException.nonStd) →
      call s = CallOutcome.errorReport
        ⟨SqlErrCode.invalidParameterValue, formatMsg s.fname unknownExcMsg⟩) := by
  refine ⟨fun w hc => ?_, fun w hc => ?_, fun hc => ?_, fun db db2 hc hx => ?_⟩
  · simp [call, callWithArg, hc, reportAndExit]
  · simp [call, callWithArg, hc, reportAndExit]
  · simp [call, callWithArg, hc, reportAndExit, reportedText_unknownExcMsg]
  · simp [call, callWithArg, hc, hx, reportAndExit, reportedText_unknownExcMsg]

def scnNonStdExec : Scenario where
  fname := strBytes "add"
  ctor := Except.ok ⟨none⟩
  exec := fun _ db => (db, Except.error CppException.nonStd)
  convert := fun _ => ⟨0⟩

/-- Witness for C5: a concrete invocation whose guarded body raises a
non-exception failure signal is reported with the generic fallback text. -/
theorem unrecognized_failures_still_reported_witness :
    call scnNonStdExec = CallOutcome.errorReport
      ⟨SqlErrCode.invalidParameterValue,
        formatMsg (strBytes "add") unknownExcMsg⟩ :=
  (unrecognized_failures_still_reported scnNonStdExec).2.2.2 ⟨none⟩ ⟨none⟩ rfl rfl

/-- Case analysis on one invocation of `call`: either it does not fail and
returns normally (null signal or a converted datum), or it fails and the
outcome is a single error report whose message has the `Function "name":`
format built over a truncated text. Shared by the outcome theorems below. -/
theorem call_shape (s : Scenario) :
    (callFails s = false ∧
      (call s = CallOutcome.returnNull ∨
        ∃ d, call s = CallOutcome.returnDatum d)) ∨
    (callFails s = true ∧
      ∃ c m, call s = CallOutcome.errorReport
        ⟨c, formatMsg s.fname (reportedText m)⟩) := by
  cases hc : s.ctor with
  | error e' =>
      cases e' with
      | badAlloc w =>
          exact Or.inr ⟨by simp [callFails, hc],
            SqlErrCode.invalidParameterValue, w,
            by simp [call, callWithArg, hc, reportAndExit]⟩
      | stdExc w =>
          exact Or.inr ⟨by simp [callFails, hc],
            SqlErrCode.invalidParameterValue, w,
            by simp [call, callWithArg, hc, reportAndExit]⟩
      | nonStd =>
          exact Or.inr ⟨by simp [callFails, hc],
            SqlErrCode.invalidParameterValue, unknownExcMsg,
            by simp [call, callWithArg, hc, reportAndExit]⟩
  | ok db =>
      rcases hx : s.exec callArg db with ⟨db2, r⟩
      cases r with
      | ok v =>
          cases hv : v.isNull with
          | true =>
              exact Or.inl ⟨by simp [callFails, hc, hx],
                Or.inl (by simp [call, callWithArg, hc, hx, hv])⟩
          | false =>
              exact Or.inl ⟨by simp [callFails, hc, hx],
                Or.inr ⟨s.convert v, by simp [call, callWithArg, hc, hx, hv]⟩⟩
      | error e' =>
          cases e' with
          | badAlloc w =>
              exact Or.inr ⟨by simp [callFails, hc, hx],
                SqlErrCode.outOfMemory, oomMsg,
                by simp [call, callWithArg, hc, hx, reportAndExit]⟩
          | stdExc w =>
              cases hdl : db2.lastError with
              | none =>
                  exact Or.inr ⟨by simp [callFails, hc, hx],
                    SqlErrCode.invalidParameterValue, w,
                    by simp [call, callWithArg, hc, hx, reportAndExit, hdl]⟩
              | some d =>
                  exact Or.inr ⟨by simp [callFails, hc, hx],
                    SqlErrCode.invalidParameterValue, d,
                    by simp [call, callWithArg, hc, hx, reportAndExit, hdl]⟩
          | nonStd =>
              exact Or.inr ⟨by simp [callFails, hc, hx],
                SqlErrCode.invalidParameterValue, unknownExcMsg,
                by simp [call, callWithArg, hc, hx, reportAndExit]⟩

/-- Claim C6: whenever `call` reports a failure, the Error Record it hands
to `ereport` is unique for that invocation, and its message has the format
`Function "<symbol-name>": <message>` — the symbol name is embedded through
`formatMsg`. -/
theorem error_record_unique_and_formatted (s : Scenario) (e : ErrorRecord)
    (h : call s = CallOutcome.errorReport e) :
    (∃ m, e.message = formatMsg s.fname m) ∧
    (∀ e2, call s = CallOutcome.errorReport e2 → e2 = e) := by
  refine ⟨?_, fun e2 h2 => ?_⟩
  · rcases call_shape s with ⟨_, hn | ⟨d, hd⟩⟩ | ⟨_, c, m, hr⟩
    · rw [hn] at h
      exact CallOutcome.noConfusion h
    · rw [hd] at h
      exact CallOutcome.noConfusion h
    · rw [hr] at h
      exact ⟨reportedText m, by rw [← CallOutcome.errorReport.inj h]⟩
  · rw [h] at h2
    exact (CallOutcome.errorReport.inj h2).symm

/-- Witness for C6: the error record of a concrete failing invocation has
the `Function "add": ...` message format. -/
theorem error_record_unique_and_formatted_witness :
    ∃ m, (ErrorRecord.mk SqlErrCode.outOfMemory
      (formatMsg (strBytes "add") (reportedText oomMsg))).message =
        formatMsg (strBytes "add") m :=
  (error_record_unique_and_formatted scnOomExec
    ⟨SqlErrCode.outOfMemory, formatMsg (strBytes "add") (reportedText oomMsg)⟩
    rfl).1

/-- Claim C7: the only observable outcomes of an invocation are a normal
return (null signal or converted datum) or a single error report via the
non-local exit; the error report happens exactly when the invocation fails;
and the trailing `PG_RETURN_NULL()` after `ereport` is never reached. -/
theorem observable_outcomes (s : Scenario) :
    call s ≠ CallOutcome.trailingNull ∧
    (call s = CallOutcome.returnNull ∨
      (∃ d, call s = CallOutcome.returnDatum d) ∨
      (∃ e, call s = CallOutcome.errorReport e)) ∧
    ((∃ e, call s = CallOutcome.errorReport e) ↔ callFails s = true) := by
  rcases call_shape s with ⟨hf, hn | ⟨d, hd⟩⟩ | ⟨hf, c, m, hr⟩
  · refine ⟨by rw [hn]; simp, Or.inl hn, ?_, fun ht => ?_⟩
    · rintro ⟨e, he⟩
      rw [hn] at he
      exact CallOutcome.noConfusion he
    · rw [hf] at ht
      exact Bool.noConfusion ht
  · refine ⟨by rw [hd]; simp, Or.inr (Or.inl ⟨d, hd⟩), ?_, fun ht => ?_⟩
    · rintro ⟨e, he⟩
      rw [hd] at he
      exact CallOutcome.noConfusion he
    · rw [hf] at ht
      exact Bool.noConfusion ht
  · exact ⟨by rw [hr]; simp, Or.inr (Or.inr ⟨_, hr⟩),
      fun _ => hf, fun _ => ⟨_, hr⟩⟩

/-- Claim C8: the Polymorphic Value through which the native function reads
its arguments is the one `call` constructs with the `NoDeleter` policy —
referencing, not owning — so destroying the container never frees the
wrapped, host-owned argument state. -/
theorem argument_wrapped_non_owning :
    (∀ s, call s = callWithArg s callArg) ∧
    callArg = AnyType.wrapped ⟨DeleterPolicy.noDeleter⟩ ∧
    AnyType.freesWrapped callArg = false :=
  ⟨fun _ => rfl, rfl, rfl⟩
